import Mathlib

/-!
Verification of the real-time duplex voice session manager (`useGeminiLive`,
src/unnamed/part_005) against its natural-language specification.

The hook's mutable refs and React state are embedded as explicit state
records; each transport callback branch becomes a pure state-transition
function.  Times are rationals (AudioContext seconds) or integers
(`Date.now()` milliseconds).
-/

set_option linter.unusedVariables false

/-- Connection state enum (src/types.ts). -/
inductive ConnectionState where
  | DISCONNECTED
  | CONNECTING
  | CONNECTED
  | ERROR
deriving DecidableEq, Repr

/-! ## Playback scheduling (part_005 lines 500-503)

`const now = ctx.currentTime; const startTime = Math.max(now, nextStartTimeRef.current);
source.start(startTime); nextStartTimeRef.current = startTime + audioBuffer.duration;` -/

/-- Schedule one decoded buffer: returns the scheduled start time and the new
value of the playback clock (`nextStartTimeRef`). -/
def scheduleBuffer (now clock dur : ℚ) : ℚ × ℚ :=
  let startTime := max now clock
  (startTime, startTime + dur)

/-- Scheduled start times of a sequence of buffers, each given as
(arrival time `ctx.currentTime`, decoded duration), processed in arrival
order starting from playback clock `clock`. -/
def scheduleStarts (clock : ℚ) : List (ℚ × ℚ) → List ℚ
  | [] => []
  | b :: rest =>
      let p := scheduleBuffer b.1 clock b.2
      p.1 :: scheduleStarts p.2 rest

theorem scheduleStarts_length (clock : ℚ) (bufs : List (ℚ × ℚ)) :
    (scheduleStarts clock bufs).length = bufs.length := by
  induction bufs generalizing clock with
  | nil => rfl
  | cons b rest ih => simp [scheduleStarts, ih]

theorem scheduleStarts_cons (clock : ℚ) (b : ℚ × ℚ) (rest : List (ℚ × ℚ)) :
    scheduleStarts clock (b :: rest)
      = max b.1 clock :: scheduleStarts (max b.1 clock + b.2) rest := rfl

/-- The start of buffer `i+1` is the max of its arrival time and the clock
left behind by buffer `i` (start of `i` plus its duration). -/
theorem scheduleStarts_succ (bufs : List (ℚ × ℚ)) :
    ∀ (clock : ℚ) (i : ℕ) (h : i + 1 < bufs.length),
      (scheduleStarts clock bufs).get ⟨i + 1, by rw [scheduleStarts_length]; exact h⟩
        = max (bufs.get ⟨i + 1, h⟩).1
            ((scheduleStarts clock bufs).get
                ⟨i, by rw [scheduleStarts_length]; omega⟩
              + (bufs.get ⟨i, by omega⟩).2) := by
  induction bufs with
  | nil => intro clock i h; simp at h
  | cons b rest ih =>
      intro clock i h
      match rest, i with
      | b' :: rest', 0 =>
          simp [scheduleStarts_cons, scheduleBuffer, List.get]
      | b' :: rest', (j + 1) =>
          have h' : j + 1 < (b' :: rest').length := by
            simpa using Nat.lt_of_succ_lt_succ h
          simpa [scheduleStarts_cons, List.get] using
            ih (max b.1 clock + b.2) j h'

/-- Claim C1: every decoded buffer is scheduled at
`startTime = max(now, playbackClock)` and the clock then advances to
`startTime + duration`; for a non-interrupted sequence of buffers with
non-negative durations arriving at non-decreasing times, the scheduled
starts are non-decreasing, consecutive buffers never overlap
(`start(i+1) ≥ start(i) + d(i)`), and a buffer arriving after
`start(i) + d(i)` has elapsed starts exactly at its arrival time. -/
theorem C1_monotone_gapless_scheduling (clock0 : ℚ) (bufs : List (ℚ × ℚ))
    (hdur : ∀ b ∈ bufs, 0 ≤ b.2)
    (harr : List.Pairwise (· ≤ ·) (bufs.map Prod.fst)) :
    (∀ now clock dur : ℚ,
        scheduleBuffer now clock dur = (max now clock, max now clock + dur)) ∧
    (scheduleStarts clock0 bufs).length = bufs.length ∧
    ∀ (i : ℕ) (h : i + 1 < bufs.length),
      (scheduleStarts clock0 bufs).get ⟨i + 1, by rw [scheduleStarts_length]; exact h⟩
          ≥ (scheduleStarts clock0 bufs).get ⟨i, by rw [scheduleStarts_length]; omega⟩
            + (bufs.get ⟨i, by omega⟩).2 ∧
      (scheduleStarts clock0 bufs).get ⟨i + 1, by rw [scheduleStarts_length]; exact h⟩
          ≥ (scheduleStarts clock0 bufs).get ⟨i, by rw [scheduleStarts_length]; omega⟩ ∧
      ((bufs.get ⟨i + 1, h⟩).1
            ≥ (scheduleStarts clock0 bufs).get ⟨i, by rw [scheduleStarts_length]; omega⟩
              + (bufs.get ⟨i, by omega⟩).2 →
        (scheduleStarts clock0 bufs).get ⟨i + 1, by rw [scheduleStarts_length]; exact h⟩
          = (bufs.get ⟨i + 1, h⟩).1) := by
  refine ⟨fun now clock dur => rfl, scheduleStarts_length clock0 bufs, ?_⟩
  intro i h
  have hsucc := scheduleStarts_succ bufs clock0 i h
  have hge : (scheduleStarts clock0 bufs).get
        ⟨i + 1, by rw [scheduleStarts_length]; exact h⟩
      ≥ (scheduleStarts clock0 bufs).get ⟨i, by rw [scheduleStarts_length]; omega⟩
        + (bufs.get ⟨i, by omega⟩).2 := by
    rw [hsucc]; exact le_max_right _ _
  have hd : 0 ≤ (bufs.get ⟨i, by omega⟩).2 :=
    hdur _ (bufs.get_mem _ _)
  refine ⟨hge, le_trans (by linarith) hge, fun hgap => ?_⟩
  rw [hsucc]
  exact max_eq_left hgap

/-- Concrete buffer sequence: the spec's example scenarios 1 and 2 merged —
three half-second buffers, the first two arriving at time 0 and the third
at time 2 (after `start(2) + d(2) = 1` has elapsed). -/
def exampleBufs : List (ℚ × ℚ) := [(0, 1/2), (0, 1/2), (2, 1/2)]

/-- Witness for C1 at the concrete example: the hypotheses hold and the
third buffer, arriving at 2 after the clock reached 1, starts exactly at
its arrival time 2. -/
theorem C1_monotone_gapless_scheduling_witness :
    ((∀ b ∈ exampleBufs, (0:ℚ) ≤ b.2) ∧
      List.Pairwise (· ≤ ·) (exampleBufs.map Prod.fst)) ∧
    (scheduleStarts 0 exampleBufs).get ⟨2, by simp [scheduleStarts_length, exampleBufs]⟩
      = (exampleBufs.get ⟨2, by simp [exampleBufs]⟩).1 := by
  have h1 : ∀ b ∈ exampleBufs, (0:ℚ) ≤ b.2 := by
    intro b hb
    simp only [exampleBufs, List.mem_cons, List.mem_singleton] at hb
    rcases hb with h | h | h | h <;> first | (subst h; norm_num) | cases h
  have h2 : List.Pairwise (· ≤ ·) (exampleBufs.map Prod.fst) := by
    simp only [exampleBufs, List.map, List.pairwise_cons, List.mem_cons]
    norm_num
  refine ⟨⟨h1, h2⟩, ?_⟩
  have hmain :=
    (C1_monotone_gapless_scheduling 0 exampleBufs h1 h2).2.2 1 (by simp [exampleBufs])
  refine hmain.2.2 ?_
  show ((2 : ℚ), (1/2 : ℚ)).1
      ≥ (scheduleStarts 0 exampleBufs).get ⟨1, by simp [scheduleStarts_length, exampleBufs]⟩
        + (((0:ℚ), (1/2:ℚ)).2)
  norm_num [exampleBufs, scheduleStarts, scheduleBuffer, List.get]

/-! ## Session state

One record mirroring the hook's `useState` values and `useRef` cells
(part_005 lines 59-91).  `isSpeaking` is the React state value;
`isSpeakingRef` is the cell the capture callback reads; the copy from the
former to the latter happens in a `useEffect` (lines 94-96), i.e. only
after React has re-rendered — modelled by `isSpeakingSyncPending` plus an
explicit `flushIsSpeakingEffect` step. -/

structure LiveState where
  connectionState : ConnectionState
  isSpeaking : Bool
  volume : ℚ
  inputCtxOpen : Bool
  outputCtxOpen : Bool
  inputSourceConnected : Bool
  scriptProcessorConnected : Bool
  analyserSet : Bool
  activeSources : List ℕ
  isSpeakingRef : Bool
  isMusicPlayingRef : Bool
  lastSpeechEndTime : ℤ
  nextStartTime : ℚ
  hasSession : Bool
  currentInputTranscript : String
  currentOutputTranscript : String
  isSpeakingSyncPending : Bool
deriving DecidableEq, Repr

/-- `setIsSpeaking`: a React state update.  The state value changes, and the
`useEffect` of lines 94-96 that copies it into `isSpeakingRef` is queued
(it runs when the dependency changed) but does not run here. -/
def setIsSpeaking (b : Bool) (st : LiveState) : LiveState :=
  { st with isSpeaking := b,
            isSpeakingSyncPending := st.isSpeakingSyncPending || (st.isSpeaking != b) }

/-- The queued effect of lines 94-96 eventually runs:
`isSpeakingRef.current = isSpeaking`. -/
def flushIsSpeakingEffect (st : LiveState) : LiveState :=
  { st with isSpeakingRef := st.isSpeaking, isSpeakingSyncPending := false }

/-! ## Capture callback and mic gate (part_005 lines 211-229) -/

/-- Modelled from the spec: `createPcmBlob` (utils/audioUtils, imported at
part_005 line 4 but not under src/) encodes float capture samples as 16-bit
signed little-endian PCM for the transport envelope; modelled as clamping
each sample to [-1, 1] and scaling to a signed 16-bit integer. -/
def createPcmBlob (samples : List ℚ) : List ℤ :=
  samples.map (fun s => Int.floor (max (-1 : ℚ) (min 1 s) * 32767))

/-- `processor.onaudioprocess`: returns the blob forwarded to
`session.sendRealtimeInput`, if any.  Gate 1: other audio playing.
Gate 2: the speaking flag the processor reads (`isSpeakingRef`).
Gate 3: fewer than 700 ms since speech last ended.  The send also
requires `sessionPromiseRef.current` to be non-null. -/
def onAudioProcess (st : LiveState) (nowMs : ℤ) (inputData : List ℚ) :
    Option (List ℤ) :=
  if st.isMusicPlayingRef then none
  else if st.isSpeakingRef then none
  else if nowMs - st.lastSpeechEndTime < 700 then none
  else if st.hasSession then some (createPcmBlob inputData)
  else none

/-- Claim C2 (amended): no captured frame is forwarded while the speaking
flag the capture callback consults (`isSpeakingRef`) is set, nor within
700 ms of the recorded speech end, nor while the external music-playing
flag is set; with all three gates open (and an active session) the frame
is encoded and sent.  The claim's original `isSpeaking` (the React state
value) does not gate the callback: it reaches `isSpeakingRef` only through
a deferred effect, and in the sync window a frame is forwarded while
`isSpeaking = true` (see `C2_counterexample`). -/
theorem C2_mic_gate (st : LiveState) (nowMs : ℤ) (inputData : List ℚ) :
    (st.isSpeakingRef = true → onAudioProcess st nowMs inputData = none) ∧
    (nowMs - st.lastSpeechEndTime < 700 → onAudioProcess st nowMs inputData = none) ∧
    (st.isMusicPlayingRef = true → onAudioProcess st nowMs inputData = none) ∧
    (st.isMusicPlayingRef = false → st.isSpeakingRef = false →
      700 ≤ nowMs - st.lastSpeechEndTime → st.hasSession = true →
      onAudioProcess st nowMs inputData = some (createPcmBlob inputData)) := by
  refine ⟨fun h => ?_, fun h => ?_, fun h => ?_, fun h1 h2 h3 h4 => ?_⟩
  · simp [onAudioProcess, h]
  · by_cases hm : st.isMusicPlayingRef <;> by_cases hs : st.isSpeakingRef <;>
      simp [onAudioProcess, hm, hs, h]
  · simp [onAudioProcess, h]
  · have h3' : ¬ (nowMs - st.lastSpeechEndTime < 700) := by omega
    simp [onAudioProcess, h1, h2, h3', h4]

/-- A fully open gate state used to witness C2. -/
def openGateState : LiveState :=
  { connectionState := .CONNECTED, isSpeaking := false, volume := 0,
    inputCtxOpen := true, outputCtxOpen := true, inputSourceConnected := true,
    scriptProcessorConnected := true, analyserSet := true, activeSources := [],
    isSpeakingRef := false, isMusicPlayingRef := false, lastSpeechEndTime := 0,
    nextStartTime := 0, hasSession := true, currentInputTranscript := "",
    currentOutputTranscript := "", isSpeakingSyncPending := false }

/-- Witness for C2: at 800 ms after the recorded speech end with every gate
open, the capture callback forwards the encoded frame. -/
theorem C2_mic_gate_witness :
    (openGateState.isMusicPlayingRef = false ∧ openGateState.isSpeakingRef = false ∧
      (700 : ℤ) ≤ 800 - openGateState.lastSpeechEndTime ∧ openGateState.hasSession = true) ∧
    onAudioProcess openGateState 800 [0, 1/2] = some (createPcmBlob [0, 1/2]) := by
  refine ⟨⟨rfl, rfl, by decide, rfl⟩, ?_⟩
  exact (C2_mic_gate openGateState 800 [0, 1/2]).2.2.2 rfl rfl (by decide) rfl

/-! ## modelTurn audio handling (part_005 lines 485-513) -/

/-- One inline audio part of a `modelTurn` message: decode, schedule at
`max(now, nextStartTime)`, advance the clock, add the source node (`srcId`)
to the active set and call `setIsSpeaking(true)`.  Returns the new state
and the scheduled start time. -/
def onModelAudioPart (srcId : ℕ) (now dur : ℚ) (st : LiveState) : LiveState × ℚ :=
  let p := scheduleBuffer now st.nextStartTime dur
  (setIsSpeaking true
      { st with nextStartTime := p.2,
                activeSources := st.activeSources ++ [srcId] },
    p.1)

/-- `source.onended` (lines 505-511): remove the source from the active set;
if the set became empty, `setIsSpeaking(false)` and record the speech end
time (`Date.now()`). -/
def onSourceEnded (srcId : ℕ) (nowMs : ℤ) (st : LiveState) : LiveState :=
  let st1 := { st with activeSources := st.activeSources.erase srcId }
  if st1.activeSources.isEmpty then
    { setIsSpeaking false st1 with lastSpeechEndTime := nowMs }
  else st1

/-- A quiescent connected session before the model starts speaking, with
the cooldown long expired. -/
def quiescentState : LiveState :=
  { openGateState with lastSpeechEndTime := -1000000 }

/-- Counterexample to claim C2 as stated: in the state reached right after
a model audio part is scheduled, `isSpeaking = true` (line 512 has run),
yet a capture callback firing before the deferred ref-sync effect of
lines 94-96 still forwards the encoded frame, because the gate of line 216
reads the stale `isSpeakingRef`. -/
theorem C2_counterexample :
    (onModelAudioPart 7 0 (1/2) quiescentState).1.isSpeaking = true ∧
    onAudioProcess (onModelAudioPart 7 0 (1/2) quiescentState).1 900 [0, 1/2]
        = some (createPcmBlob [0, 1/2]) := by
  refine ⟨rfl, ?_⟩
  simp [onModelAudioPart, setIsSpeaking, quiescentState, openGateState,
    onAudioProcess, scheduleBuffer]

/-- Claim C8 (failing run): the gate state is *not* updated synchronously.
Scheduling a model audio buffer calls `setIsSpeaking(true)`, but the copy
into `isSpeakingRef` (lines 94-96) is a deferred `useEffect`: a capture
callback that fires before the effect flush still reads the stale
`isSpeakingRef = false` and forwards a frame although `isSpeaking = true`
(the sync is pending).  Only after `flushIsSpeakingEffect` does the gate
close. -/
theorem C8_stale_gate_read :
    (onModelAudioPart 0 0 (1/2) quiescentState).1.isSpeaking = true ∧
    (onModelAudioPart 0 0 (1/2) quiescentState).1.isSpeakingSyncPending = true ∧
    onAudioProcess (onModelAudioPart 0 0 (1/2) quiescentState).1 0 [0]
        = some (createPcmBlob [0]) ∧
    onAudioProcess (flushIsSpeakingEffect (onModelAudioPart 0 0 (1/2) quiescentState).1) 0 [0]
        = none := by
  refine ⟨rfl, rfl, ?_, rfl⟩
  simp [onModelAudioPart, setIsSpeaking, quiescentState, openGateState,
    onAudioProcess, scheduleBuffer]

/-! ## Interruption (part_005 lines 523-530)

`activeSourcesRef.current.forEach(s => s.stop()); activeSourcesRef.current.clear();
setIsSpeaking(false); nextStartTimeRef.current = outputAudioContextRef.current?.currentTime || 0;
currentInputTranscriptRef.current = ""; currentOutputTranscriptRef.current = "";` -/

/-- A transcript message (`ChatMessage`, src/types.ts) as emitted to the
`onChatUpdate` sink. -/
structure ChatMessage where
  id : String
  role : String
  text : String
  timestampMs : ℤ
deriving DecidableEq, Repr

/-- What the interrupted branch did: which sources were stopped and which
transcript messages were emitted (none are). -/
structure InterruptOut where
  stoppedSources : List ℕ
  emittedMessages : List ChatMessage
deriving DecidableEq, Repr

/-- The `serverContent.interrupted` branch.  `octxTime` is
`outputAudioContextRef.current?.currentTime` (`none` when the context is
null; the `|| 0` fallback maps both `none` and `0` to `0`). -/
def onInterrupted (octxTime : Option ℚ) (st : LiveState) : LiveState × InterruptOut :=
  (setIsSpeaking false
      { st with activeSources := [],
                nextStartTime := octxTime.getD 0,
                currentInputTranscript := "",
                currentOutputTranscript := "" },
    { stoppedSources := st.activeSources, emittedMessages := [] })

/-- Claim C4: on an interrupted signal every active buffer is stopped and
the set cleared, the playback clock is reset to the interruption time
(the output context's current time), `isSpeaking` is cleared, and both
transcript accumulators are discarded with no transcript message emitted. -/
theorem C4_interruption_flush (st : LiveState) (t : ℚ) :
    (onInterrupted (some t) st).2.stoppedSources = st.activeSources ∧
    (onInterrupted (some t) st).1.activeSources = [] ∧
    (onInterrupted (some t) st).1.nextStartTime = t ∧
    (onInterrupted (some t) st).1.isSpeaking = false ∧
    (onInterrupted (some t) st).1.currentInputTranscript = "" ∧
    (onInterrupted (some t) st).1.currentOutputTranscript = "" ∧
    (onInterrupted (some t) st).2.emittedMessages = [] :=
  ⟨rfl, rfl, rfl, rfl, rfl, rfl, rfl⟩

/-! ## Transcript accumulation and turn-complete flush (part_005 lines 310-347) -/

/-- `serverContent.inputTranscription`: append the delta
(`.text || ""`) to the user accumulator. -/
def accumInputDelta (t : Option String) (st : LiveState) : LiveState :=
  { st with currentInputTranscript := st.currentInputTranscript ++ t.getD "" }

/-- `serverContent.outputTranscription`: append the delta to the model
accumulator. -/
def accumOutputDelta (t : Option String) (st : LiveState) : LiveState :=
  { st with currentOutputTranscript := st.currentOutputTranscript ++ t.getD "" }

/-- A sequence of user-transcription deltas in arrival order. -/
def accumInputDeltas (ds : List (Option String)) (st : LiveState) : LiveState :=
  ds.foldl (fun s t => accumInputDelta t s) st

/-- The user message built at flush time: id `Date.now() + '-user'`,
text the *trimmed* accumulator. -/
def userMessage (nowMs : ℤ) (text : String) : ChatMessage :=
  { id := toString nowMs ++ "-user", role := "user", text := text, timestampMs := nowMs }

/-- The model message built at flush time. -/
def modelMessage (nowMs : ℤ) (text : String) : ChatMessage :=
  { id := toString nowMs ++ "-model", role := "model", text := text, timestampMs := nowMs }

/-- JavaScript `String.prototype.trim` (a platform builtin, used at lines
323, 327, 336, 340), modelled as dropping whitespace characters from both
ends of the string. -/
def jsTrim (s : String) : String :=
  ⟨((s.data.dropWhile Char.isWhitespace).reverse.dropWhile Char.isWhitespace).reverse⟩

theorem jsTrim_empty : jsTrim "" = "" := rfl

/-- `serverContent.turnComplete` (lines 321-347): for each role, if the
accumulator is truthy *after* `.trim()`, emit one message with the trimmed
text and clear the accumulator; otherwise emit nothing and leave the
accumulator untouched. -/
def onTurnComplete (nowMs : ℤ) (st : LiveState) : LiveState × List ChatMessage :=
  let p1 :=
    if jsTrim st.currentInputTranscript ≠ "" then
      ({ st with currentInputTranscript := "" },
        [userMessage nowMs (jsTrim st.currentInputTranscript)])
    else (st, ([] : List ChatMessage))
  let p2 :=
    if jsTrim p1.1.currentOutputTranscript ≠ "" then
      ({ p1.1 with currentOutputTranscript := "" },
        [modelMessage nowMs (jsTrim p1.1.currentOutputTranscript)])
    else (p1.1, ([] : List ChatMessage))
  (p2.1, p1.2 ++ p2.2)

/-- A state whose user accumulator is the non-empty whitespace string. -/
def whitespaceTranscriptState : LiveState :=
  { openGateState with currentInputTranscript := " " }

/-- Counterexample to claim C9 as stated: a *non-empty* accumulated
transcript (a single space) yields *no* transcript message on
turn-complete, because the code tests and emits the trimmed string. -/
theorem C9_counterexample :
    whitespaceTranscriptState.currentInputTranscript ≠ "" ∧
    (onTurnComplete 0 whitespaceTranscriptState).2 = [] := by
  constructor
  · decide
  · decide

/-- Claim C9 (amended): deltas are appended in arrival order; on
turn-complete each role whose accumulator is non-blank (non-empty after
trimming) yields exactly one message with the trimmed concatenation and
its accumulator is cleared, a blank accumulator yields no message and is
left unchanged; hence a second turn-complete with no intervening deltas
emits no messages. -/
theorem C9_transcript_flush (st : LiveState) (ds : List (Option String)) (n1 n2 : ℤ) :
    (accumInputDeltas ds st).currentInputTranscript
        = ds.foldl (fun acc t => acc ++ t.getD "") st.currentInputTranscript ∧
    (jsTrim st.currentInputTranscript ≠ "" →
        (onTurnComplete n1 st).2.filter (fun m => m.role == "user")
            = [userMessage n1 (jsTrim st.currentInputTranscript)] ∧
        (onTurnComplete n1 st).1.currentInputTranscript = "") ∧
    (jsTrim st.currentInputTranscript = "" →
        (onTurnComplete n1 st).2.filter (fun m => m.role == "user") = [] ∧
        (onTurnComplete n1 st).1.currentInputTranscript = st.currentInputTranscript) ∧
    (jsTrim st.currentOutputTranscript ≠ "" →
        (onTurnComplete n1 st).2.filter (fun m => m.role == "model")
            = [modelMessage n1 (jsTrim st.currentOutputTranscript)] ∧
        (onTurnComplete n1 st).1.currentOutputTranscript = "") ∧
    (jsTrim st.currentOutputTranscript = "" →
        (onTurnComplete n1 st).2.filter (fun m => m.role == "model") = [] ∧
        (onTurnComplete n1 st).1.currentOutputTranscript = st.currentOutputTranscript) ∧
    (onTurnComplete n2 (onTurnComplete n1 st).1).2 = [] := by
  have haccum : ∀ (ds : List (Option String)) (st : LiveState),
      (accumInputDeltas ds st).currentInputTranscript
        = ds.foldl (fun acc t => acc ++ t.getD "") st.currentInputTranscript := by
    intro ds
    induction ds with
    | nil => intro st; rfl
    | cons d ds ih => intro st; simpa [accumInputDeltas, List.foldl] using ih _
  by_cases hi : jsTrim st.currentInputTranscript = "" <;>
    by_cases ho : jsTrim st.currentOutputTranscript = "" <;>
    refine ⟨haccum ds st, ?_, ?_, ?_, ?_, ?_⟩ <;>
    simp [onTurnComplete, hi, ho, jsTrim_empty, userMessage, modelMessage]

/-- A state holding the accumulated deltas `"Hel" ++ "lo"` for the user
role and nothing for the model role. -/
def helloTranscriptState : LiveState :=
  accumInputDeltas [some "Hel", some "lo"] openGateState

/-- Witness for C9 at the spec's scenario 6: deltas `"Hel","lo"` then
turn-complete yield exactly one user message `"Hello"`, and a second
turn-complete emits nothing. -/
theorem C9_transcript_flush_witness :
    (jsTrim helloTranscriptState.currentInputTranscript ≠ "" ∧
      jsTrim helloTranscriptState.currentOutputTranscript = "") ∧
    (onTurnComplete 5 helloTranscriptState).2.filter (fun m => m.role == "user")
        = [userMessage 5 "Hello"] ∧
    (onTurnComplete 7 (onTurnComplete 5 helloTranscriptState).1).2 = [] := by
  have h := C9_transcript_flush helloTranscriptState [] 5 7
  refine ⟨⟨by decide, by decide⟩, ?_, h.2.2.2.2.2⟩
  have h1 := (h.2.1 (by decide)).1
  simpa using h1

/-! ## cleanup / disconnect (part_005 lines 128-170)

`cleanup` disconnects the script processor and the input source, closes the
input context, stops every active source and clears the set, closes the
output context, drops the analyser, `setIsSpeaking(false)`, `setVolume(0)`,
`setConnectionState(DISCONNECTED)` and nulls `sessionPromiseRef`.
`cleanUpRef` is never assigned anywhere in the file, so its guarded call is
a no-op; no `session.close()` (or any transport-level close) is ever
issued, and `lastSpeechEndTimeRef` / `nextStartTimeRef` are not reset. -/

/-- Observable actions the cleanup performed. -/
structure CleanupOut where
  stoppedSources : List ℕ
  closedInputCtx : Bool
  closedOutputCtx : Bool
  closedTransportSession : Bool
deriving DecidableEq, Repr

/-- `cleanup` (lines 128-166); `disconnect` (lines 168-170) just awaits it. -/
def cleanup (st : LiveState) : LiveState × CleanupOut :=
  (setIsSpeaking false
      { st with scriptProcessorConnected := false,
                inputSourceConnected := false,
                inputCtxOpen := false,
                activeSources := [],
                outputCtxOpen := false,
                analyserSet := false,
                volume := 0,
                connectionState := .DISCONNECTED,
                hasSession := false },
    { stoppedSources := st.activeSources,
      closedInputCtx := st.inputCtxOpen,
      closedOutputCtx := st.outputCtxOpen,
      closedTransportSession := false })

/-- A mid-session state used as the concrete counterexample input for C7:
connected, one active source, a recorded speech end at 5000 ms. -/
def midSessionState : LiveState :=
  { openGateState with activeSources := [3], isSpeaking := true,
                       isSpeakingRef := true, lastSpeechEndTime := 5000 }

/-- Counterexample to claim C7 as stated: disconnecting from a live session
issues no transport-level close (the session promise reference is merely
dropped) and leaves the 700 ms-cooldown timestamp (`lastSpeechEndTimeRef`)
unchanged instead of clearing it. -/
theorem C7_counterexample :
    (cleanup midSessionState).2.closedTransportSession = false ∧
    (cleanup midSessionState).1.lastSpeechEndTime = 5000 ∧
    (cleanup midSessionState).1.lastSpeechEndTime ≠ 0 := by
  refine ⟨rfl, rfl, by decide⟩

/-- Claim C7 (amended): `disconnect()` is idempotent and safe from any
state: it stops capture (processor, input source, input context), stops
every active playback buffer and clears the set, closes both audio
contexts, drops the analyser and the transport session reference (without
issuing a transport-level close), clears `isSpeaking` and the volume, and
transitions to `Disconnected`; the speech-end cooldown timestamp is left
unchanged. -/
theorem C7_disconnect_idempotent_teardown (st : LiveState) :
    (cleanup st).1.scriptProcessorConnected = false ∧
    (cleanup st).1.inputSourceConnected = false ∧
    (cleanup st).1.inputCtxOpen = false ∧
    (cleanup st).1.activeSources = [] ∧
    (cleanup st).2.stoppedSources = st.activeSources ∧
    (cleanup st).1.outputCtxOpen = false ∧
    (cleanup st).1.analyserSet = false ∧
    (cleanup st).1.isSpeaking = false ∧
    (cleanup st).1.volume = 0 ∧
    (cleanup st).1.connectionState = ConnectionState.DISCONNECTED ∧
    (cleanup st).1.hasSession = false ∧
    (cleanup st).2.closedTransportSession = false ∧
    (cleanup st).1.lastSpeechEndTime = st.lastSpeechEndTime ∧
    (cleanup (cleanup st).1).1 = (cleanup st).1 := by
  refine ⟨rfl, rfl, rfl, rfl, rfl, rfl, rfl, rfl, rfl, rfl, rfl, rfl, rfl, ?_⟩
  simp [cleanup, setIsSpeaking]

/-! ## connect (part_005 lines 172-541)

The `try` block initializes both audio contexts and the analyser, awaits
`getUserMedia`, wires the capture pipeline and finally *assigns* (without
awaiting) `sessionPromiseRef.current = ai.live.connect(...)`.  The `catch`
(lines 536-540) therefore only catches failures thrown up to that
assignment (audio context / microphone): it sets `ERROR` and calls
`disconnect()`, whose cleanup then sets `DISCONNECTED`.  An asynchronous
transport-open failure never reaches the catch; it surfaces through the
`onerror` callback (line 533), which only calls `disconnect()` — the only
`setConnectionState(ERROR)` in the file is the one in the catch. -/

/-- How the asynchronous part of a connection attempt resolves. -/
inductive SetupOutcome where
  | success (octxTime : ℚ)
  | deviceFailure
  | transportOpenFailure
deriving DecidableEq, Repr

/-- `connect` (lines 172-541), returning the final state and the ordered
trace of `setConnectionState` calls it (and the callbacks it installs)
performed. -/
def connectFn (st : LiveState) (outcome : SetupOutcome) :
    LiveState × List ConnectionState :=
  if st.connectionState = ConnectionState.CONNECTED
      ∨ st.connectionState = ConnectionState.CONNECTING then
    (st, [])
  else
    let st1 := { st with connectionState := .CONNECTING }
    let acquired := { st1 with inputCtxOpen := true, outputCtxOpen := true,
                               analyserSet := true, inputSourceConnected := true,
                               scriptProcessorConnected := true }
    match outcome with
    | .deviceFailure =>
        ((cleanup { acquired with connectionState := .ERROR }).1,
          [.CONNECTING, .ERROR, .DISCONNECTED])
    | .success t =>
        ({ acquired with hasSession := true, connectionState := .CONNECTED,
                         nextStartTime := t },
          [.CONNECTING, .CONNECTED])
    | .transportOpenFailure =>
        ((cleanup { acquired with hasSession := true }).1,
          [.CONNECTING, .DISCONNECTED])

/-- A freshly mounted, fully disconnected state. -/
def initialState : LiveState :=
  { connectionState := .DISCONNECTED, isSpeaking := false, volume := 0,
    inputCtxOpen := false, outputCtxOpen := false, inputSourceConnected := false,
    scriptProcessorConnected := false, analyserSet := false, activeSources := [],
    isSpeakingRef := false, isMusicPlayingRef := false, lastSpeechEndTime := 0,
    nextStartTime := 0, hasSession := false, currentInputTranscript := "",
    currentOutputTranscript := "", isSpeakingSyncPending := false }

/-- Counterexample to claim C6 as stated: when the transport open fails,
the session never transitions to `Error` — the error callback tears down
straight to `Disconnected`. -/
theorem C6_counterexample :
    (connectFn initialState .transportOpenFailure).2
        = [ConnectionState.CONNECTING, ConnectionState.DISCONNECTED] ∧
    ConnectionState.ERROR ∉ (connectFn initialState .transportOpenFailure).2 := by
  refine ⟨by decide, by decide⟩

/-- No resource of a partial session survives: everything capture/playback
related is released and the transport reference is gone. -/
def tornDown (st : LiveState) : Prop :=
  st.connectionState = ConnectionState.DISCONNECTED ∧ st.hasSession = false ∧
  st.inputCtxOpen = false ∧ st.outputCtxOpen = false ∧
  st.inputSourceConnected = false ∧ st.scriptProcessorConnected = false ∧
  st.analyserSet = false ∧ st.activeSources = [] ∧ st.isSpeaking = false

/-- Claim C6 (amended): `connect()` is a no-op when the state is
`Connecting` or `Connected`; otherwise it transitions to `Connecting`, a
failure thrown during setup (audio context or device acquisition)
transitions to `Error` and then performs full teardown (ending
`Disconnected`) leaving no partial session running, while an asynchronous
transport-open failure is torn down by the error callback, transitioning
to `Disconnected` without ever entering `Error`. -/
theorem C6_connect_guard_and_failure (st : LiveState) :
    (st.connectionState = ConnectionState.CONNECTED
        ∨ st.connectionState = ConnectionState.CONNECTING →
      ∀ o, connectFn st o = (st, [])) ∧
    (st.connectionState ≠ ConnectionState.CONNECTED →
      st.connectionState ≠ ConnectionState.CONNECTING →
      (connectFn st .deviceFailure).2
          = [ConnectionState.CONNECTING, ConnectionState.ERROR,
              ConnectionState.DISCONNECTED] ∧
      tornDown (connectFn st .deviceFailure).1 ∧
      (connectFn st .transportOpenFailure).2
          = [ConnectionState.CONNECTING, ConnectionState.DISCONNECTED] ∧
      ConnectionState.ERROR ∉ (connectFn st .transportOpenFailure).2 ∧
      tornDown (connectFn st .transportOpenFailure).1) := by
  constructor
  · intro h o
    simp [connectFn, h]
  · intro h1 h2
    have hg : ¬ (st.connectionState = ConnectionState.CONNECTED
        ∨ st.connectionState = ConnectionState.CONNECTING) := by
      rintro (h | h) <;> [exact h1 h; exact h2 h]
    refine ⟨by simp [connectFn, hg], ?_, by simp [connectFn, hg], by simp [connectFn, hg], ?_⟩
    · simp [connectFn, hg, cleanup, setIsSpeaking, tornDown]
    · simp [connectFn, hg, cleanup, setIsSpeaking, tornDown]

/-- Witness for C6 at the concrete initial state: the guard hypotheses
hold and a device failure yields the `CONNECTING, ERROR, DISCONNECTED`
trace with full teardown. -/
theorem C6_connect_guard_and_failure_witness :
    (initialState.connectionState ≠ ConnectionState.CONNECTED ∧
      initialState.connectionState ≠ ConnectionState.CONNECTING) ∧
    (connectFn initialState .deviceFailure).2
        = [ConnectionState.CONNECTING, ConnectionState.ERROR,
            ConnectionState.DISCONNECTED] ∧
    tornDown (connectFn initialState .deviceFailure).1 := by
  have h := (C6_connect_guard_and_failure initialState).2 (by decide) (by decide)
  exact ⟨⟨by decide, by decide⟩, h.1, h.2.1⟩

/-! ## Tool-call dispatch (part_005 lines 350-483)

For every `fc` of `message.toolCall.functionCalls` the loop starts from
`let result: any = "Done"`, runs the `if/else` chain over `fc.name` inside
`try`, converts a thrown error into `` `Error: ${e.message}` `` and pushes
`{id: fc.id, name: fc.name, response: {result}}`; afterwards the whole
response list is sent as a single `sendToolResponse` batch, but only `if
(responses.length > 0 && sessionPromiseRef.current)`.

External collaborators (injected callbacks, `fetch`+`res.json()`,
`window.open`, `new Notification`) are parameters of the environment;
results the code immediately passes through `JSON.stringify` are modelled
as the already-serialized string.  A collaborator models throwing by
returning `Except.error` with the error message. -/

/-- A workspace file (`filesRef.current`). -/
structure WorkspaceFile where
  name : String
  content : String
deriving DecidableEq, Repr

/-- The argument map of a tool call; absent JS properties are `none`. -/
structure ToolArgs where
  note : Option String := none
  fileName : Option String := none
  content : Option String := none
  query : Option String := none
  fileId : Option String := none
  listId : Option String := none
  title : Option String := none
  notes : Option String := none
  url : Option String := none
  videoId : Option String := none
  expression : Option String := none
  body : Option String := none
deriving DecidableEq, Repr

/-- One entry of `message.toolCall.functionCalls`. -/
structure FunctionCall where
  id : String
  name : String
  args : ToolArgs
deriving DecidableEq, Repr

/-- One entry of the `sendToolResponse` batch (`response.result`
flattened, it is always a string here). -/
structure FunctionResponse where
  id : String
  name : String
  result : String
deriving DecidableEq, Repr

/-- Outcome of a `fetch` + `res.json()` round-trip in the search branches:
HTTP failure (`!res.ok` with its status), a `data.items` payload (already
mapped and serialized), or a body without `items`. -/
inductive FetchItems where
  | httpError (status : ℕ)
  | items (payload : String)
  | noItems
deriving DecidableEq, Repr

/-- JS truthiness of a possibly-absent string (`undefined`, `null` and
`""` are falsy). -/
def truthyStr : Option String → Bool
  | none => false
  | some s => s != ""

/-- JavaScript `String.prototype.slice(0, n)` (a platform builtin, used at
line 378), modelled as taking the first `n` characters. -/
def jsSlice (s : String) (n : ℕ) : String :=
  ⟨s.data.take n⟩

/-- The injected collaborators and configuration the dispatch chain
consults.  Optional collaborators are `none` when not wired up. -/
structure ToolEnv where
  files : List WorkspaceFile
  openTabs : Bool
  media : Bool
  notifications : Bool
  notificationGranted : Bool
  accessToken : Option String
  onNoteRemembered : Option (Option String → Except String Unit)
  onFileSaved : Option (Option String → Option String → Except String Unit)
  onPlayMusic : Option (Option String → String → Except String Unit)
  onExpressionChange : Option (Option String → Except String Unit)
  searchDriveFiles : Option (Option String → Except String String)
  readDriveFile : Option (Option String → Except String (Option String))
  getTaskLists : Option (Unit → Except String String)
  getTasks : Option (Option String → Except String String)
  addTask : Option (Option String → Option String → Option String → Except String Unit)
  windowOpen : Option String → Except String Unit
  showNote : Option String → Option String → Except String Unit
  fetchYoutubeSearch : Option String → Except String FetchItems
  fetchMusicSearch : Option String → Except String FetchItems
  fetchCustomSearch : Option String → Except String FetchItems

/-- The `if/else` handler chain (lines 358-476) inside the `try`, for one
call; `Except.error` is a thrown exception propagating to the `catch`. -/
def runToolCall (env : ToolEnv) (name : String) (args : ToolArgs) :
    Except String String := do
  if name = "rememberNote" then
    match env.onNoteRemembered with
    | some f => do f args.note; pure "Note saved!"
    | none => pure "Note saved!"
  else if name = "saveToWorkspace" then
    match env.onFileSaved with
    | some f => do f args.fileName args.content; pure "File saved!"
    | none => pure "File saved!"
  else if name = "listFiles" then
    pure (String.intercalate ", " (env.files.map (fun f => f.name)))
  else if name = "readFile" then
    match (match args.fileName with
           | some n => env.files.find? (fun (file : WorkspaceFile) => file.name == n)
           | none => none) with
    | some f => pure f.content
    | none => pure "Not found"
  else if name = "searchGoogleDrive" then
    match env.searchDriveFiles with
    | some f => f args.query
    | none => pure "Disabled"
  else if name = "readGoogleDriveFile" then
    match env.readDriveFile with
    | some f => do
        let c ← f args.fileId
        pure (if truthyStr c then jsSlice (c.getD "") 20000 else "Error")
    | none => pure "Disabled"
  else if name = "listTaskLists" then
    match env.getTaskLists with
    | some f => f ()
    | none => pure "Disabled"
  else if name = "listTasks" then
    match env.getTasks with
    | some f => f args.listId
    | none => pure "Disabled"
  else if name = "addTask" then
    match env.addTask with
    | some f => do f args.title args.notes args.listId; pure "Added"
    | none => pure "Disabled"
  else if name = "openUrl" then
    if env.openTabs then do env.windowOpen args.url; pure "Opened"
    else pure "Disabled"
  else if name = "searchYoutube" then
    if truthyStr env.accessToken then
      match ← env.fetchYoutubeSearch args.query with
      | .httpError status => pure ("Error " ++ toString status ++ ": Check logs.")
      | .items payload => pure payload
      | .noItems => pure "No results found."
    else pure "Error: YouTube integration requires Google Sign-In with permissions."
  else if name = "searchMusic" then
    if truthyStr env.accessToken then
      match ← env.fetchMusicSearch args.query with
      | .httpError status => pure ("Error " ++ toString status ++ ": Check logs.")
      | .items payload => pure payload
      | .noItems => pure "No results found."
    else pure "Error: Music integration requires Google Sign-In with permissions."
  else if name = "playMusic" then
    if env.media then do
      match env.onPlayMusic with
      | some f =>
          if truthyStr args.videoId then f args.videoId "id"
          else f args.query "query"
      | none => pure ()
      pure "Playing music"
    else pure "Disabled"
  else if name = "sendNotification" then
    if env.notifications && env.notificationGranted then do
      env.showNote args.title args.body
      pure "Sent"
    else pure "Disabled"
  else if name = "searchWeb" then
    match ← env.fetchCustomSearch args.query with
    | .httpError status => pure ("API Error " ++ toString status ++ ": Check logs.")
    | .items payload => pure payload
    | .noItems => pure "No results"
  else if name = "setExpression" then do
    match env.onExpressionChange with
    | some f => f args.expression
    | none => pure ()
    pure "Expression set"
  else
    pure "Done"

/-- One loop iteration: run the chain under `try`, fold a thrown error
into `"Error: <message>"` (line 477) and build the response entry
(line 478). -/
def respondToCall (env : ToolEnv) (fc : FunctionCall) : FunctionResponse :=
  { id := fc.id, name := fc.name,
    result := match runToolCall env fc.name fc.args with
              | .ok r => r
              | .error m => "Error: " ++ m }

/-- The whole loop over `message.toolCall.functionCalls`. -/
def dispatchToolCalls (env : ToolEnv) (fcs : List FunctionCall) :
    List FunctionResponse :=
  fcs.map (respondToCall env)

/-- The response batches actually sent (lines 480-482): one batch, but only
when the response list is non-empty and a session promise exists. -/
def toolResponseBatches (env : ToolEnv) (hasSession : Bool)
    (fcs : List FunctionCall) : List (List FunctionResponse) :=
  let responses := dispatchToolCalls env fcs
  if responses.length > 0 && hasSession then [responses] else []

/-- A concrete environment with nothing wired up. -/
def defaultToolEnv : ToolEnv :=
  { files := [], openTabs := false, media := false, notifications := false,
    notificationGranted := false, accessToken := none,
    onNoteRemembered := none, onFileSaved := none, onPlayMusic := none,
    onExpressionChange := none, searchDriveFiles := none, readDriveFile := none,
    getTaskLists := none, getTasks := none, addTask := none,
    windowOpen := fun _ => Except.ok (), showNote := fun _ _ => Except.ok (),
    fetchYoutubeSearch := fun _ => Except.ok FetchItems.noItems,
    fetchMusicSearch := fun _ => Except.ok FetchItems.noItems,
    fetchCustomSearch := fun _ => Except.ok FetchItems.noItems }

/-- Counterexample to claim C3 as stated: for the empty tool-call batch
(N = 0) the guard `responses.length > 0` suppresses the send, so *no*
response batch goes out instead of exactly one (with zero entries). -/
theorem C3_counterexample :
    toolResponseBatches defaultToolEnv true [] = [] ∧
    (toolResponseBatches defaultToolEnv true []).length ≠ 1 := by
  exact ⟨rfl, by decide⟩

/-- Claim C3 (amended): for every *non-empty* tool-call batch of N requests
(with an active session) exactly one correlated response batch is sent,
containing exactly N responses whose id (and name) sequences equal those of
the requests; a request whose handler throws still yields a response with
result `"Error: <message>"`, and the error neither propagates nor aborts
the rest of the batch. -/
theorem C3_tool_batch_completeness (env : ToolEnv) (fcs : List FunctionCall)
    (h : fcs ≠ []) :
    toolResponseBatches env true fcs = [dispatchToolCalls env fcs] ∧
    (dispatchToolCalls env fcs).length = fcs.length ∧
    (dispatchToolCalls env fcs).map (fun r => r.id) = fcs.map (fun fc => fc.id) ∧
    (dispatchToolCalls env fcs).map (fun r => r.name) = fcs.map (fun fc => fc.name) ∧
    ∀ fc ∈ fcs, ∀ m, runToolCall env fc.name fc.args = Except.error m →
      { id := fc.id, name := fc.name,
        result := "Error: " ++ m : FunctionResponse } ∈ dispatchToolCalls env fcs := by
  have hl : 0 < fcs.length := List.length_pos.mpr h
  refine ⟨?_, ?_, ?_, ?_, ?_⟩
  · have : 0 < (dispatchToolCalls env fcs).length := by
      simpa [dispatchToolCalls] using hl
    simp [toolResponseBatches, this]
  · simp [dispatchToolCalls]
  · simp [dispatchToolCalls, List.map_map]
    intro a ha
    rfl
  · simp [dispatchToolCalls, List.map_map]
    intro a ha
    rfl
  · intro fc hfc m hm
    have : respondToCall env fc
        = { id := fc.id, name := fc.name, result := "Error: " ++ m } := by
      simp [respondToCall, hm]
    exact this ▸ List.mem_map_of_mem (respondToCall env) hfc

/-- A call whose handler (the injected `onNoteRemembered`) throws. -/
def throwingCall : FunctionCall := { id := "a", name := "rememberNote", args := {} }

/-- An environment whose note handler throws `"boom"`. -/
def throwingEnv : ToolEnv :=
  { defaultToolEnv with onNoteRemembered := some (fun _ => Except.error "boom") }

/-- Witness for C3: the singleton batch with a throwing handler still
yields exactly one batch of one response, ids preserved, the thrown error
folded into the result string. -/
theorem C3_tool_batch_completeness_witness :
    ([throwingCall] ≠ ([] : List FunctionCall)) ∧
    toolResponseBatches throwingEnv true [throwingCall]
        = [dispatchToolCalls throwingEnv [throwingCall]] ∧
    (dispatchToolCalls throwingEnv [throwingCall]).map (fun r => r.id) = ["a"] ∧
    { id := "a", name := "rememberNote",
      result := "Error: " ++ "boom" : FunctionResponse }
        ∈ dispatchToolCalls throwingEnv [throwingCall] := by
  have h := C3_tool_batch_completeness throwingEnv [throwingCall] (by simp)
  refine ⟨by simp, h.1, by simpa using h.2.2.1, ?_⟩
  exact h.2.2.2.2 throwingCall (by simp) "boom" rfl

/-- The sixteen names the `if/else` chain of lines 358-476 tests. -/
def handledToolNames : List String :=
  ["rememberNote", "saveToWorkspace", "listFiles", "readFile",
   "searchGoogleDrive", "readGoogleDriveFile", "listTaskLists", "listTasks",
   "addTask", "openUrl", "searchYoutube", "searchMusic", "playMusic",
   "sendNotification", "searchWeb", "setExpression"]

/-- A tool call whose name matches no branch of the chain. -/
def unknownCall : FunctionCall := { id := "a", name := "unknownFn", args := {} }

/-- Counterexample to claim C5 as stated: the batch
`[{id:"a",name:"unknownFn"}]` resolves to the *default* result `"Done"`
(line 357), not to `"capability disabled"`. -/
theorem C5_counterexample :
    dispatchToolCalls defaultToolEnv [unknownCall]
        = [{ id := "a", name := "unknownFn", result := "Done" }] ∧
    ({ id := "a", name := "unknownFn", result := "Done" : FunctionResponse }).result
        ≠ "capability disabled" := by
  exact ⟨rfl, by decide⟩

/-- Claim C5 (amended): a tool-call request whose name matches no branch
of the handler chain resolves, in every environment, to the fixed default
result string `"Done"` rather than erroring. -/
theorem C5_unknown_tool_default (env : ToolEnv) (fc : FunctionCall)
    (h : fc.name ∉ handledToolNames) :
    respondToCall env fc = { id := fc.id, name := fc.name, result := "Done" } := by
  simp only [handledToolNames, List.mem_cons, List.not_mem_nil, or_false] at h
  push_neg at h
  obtain ⟨h1, h2, h3, h4, h5, h6, h7, h8, h9, h10, h11, h12, h13, h14, h15, h16⟩ := h
  simp only [respondToCall, runToolCall, h1, h2, h3, h4, h5, h6, h7, h8, h9,
    h10, h11, h12, h13, h14, h15, h16, if_false, ite_false]
  rfl

/-- Another unregistered call, used to witness C5. -/
def mysteryCall : FunctionCall := { id := "z", name := "mysteryFn", args := {} }

/-- Witness for C5 at a concrete unregistered name. -/
theorem C5_unknown_tool_default_witness :
    (mysteryCall.name ∉ handledToolNames) ∧
    respondToCall defaultToolEnv mysteryCall
        = { id := "z", name := "mysteryFn", result := "Done" } :=
  ⟨by decide, C5_unknown_tool_default defaultToolEnv mysteryCall (by decide)⟩

/-- Claim C10: with a registered read handler, a `readGoogleDriveFile`
call returns the file content truncated to at most its first 20,000
characters; a `null` (unreadable) or empty content yields the fixed
`"Error"` string. -/
theorem C10_read_drive_truncation (env : ToolEnv)
    (f : Option String → Except String (Option String))
    (hf : env.readDriveFile = some f) (fc : FunctionCall)
    (hname : fc.name = "readGoogleDriveFile") :
    (∀ c : String, f fc.args.fileId = Except.ok (some c) → c ≠ "" →
        respondToCall env fc
            = { id := fc.id, name := fc.name, result := jsSlice c 20000 } ∧
        (jsSlice c 20000).length ≤ 20000 ∧
        (jsSlice c 20000).data ++ c.data.drop 20000 = c.data) ∧
    (f fc.args.fileId = Except.ok none →
        respondToCall env fc = { id := fc.id, name := fc.name, result := "Error" }) ∧
    (f fc.args.fileId = Except.ok (some "") →
        respondToCall env fc = { id := fc.id, name := fc.name, result := "Error" }) := by
  refine ⟨fun c hc hne => ⟨?_, ?_, ?_⟩, fun hc => ?_, fun hc => ?_⟩
  · have hb : (c != "") = true := by simpa using hne
    simp [respondToCall, runToolCall, hname, hf, hc, truthyStr, hb]
  · have h20 : (jsSlice c 20000).length = (c.data.take 20000).length := rfl
    rw [h20, List.length_take]
    exact Nat.min_le_left _ _
  · simp [jsSlice, List.take_append_drop]
  · simp [respondToCall, runToolCall, hname, hf, hc, truthyStr]
  · simp [respondToCall, runToolCall, hname, hf, hc, truthyStr]

/-- A drive environment exposing one readable 5-character file. -/
def driveEnv : ToolEnv :=
  { defaultToolEnv with
      readDriveFile := some (fun _ => Except.ok (some "hello")) }

/-- The concrete drive read call used to witness C10. -/
def driveCall : FunctionCall :=
  { id := "d1", name := "readGoogleDriveFile", args := { fileId := some "f9" } }

/-- Witness for C10: reading the 5-character file returns it whole (its
own first 20,000 characters). -/
theorem C10_read_drive_truncation_witness :
    (driveEnv.readDriveFile = some (fun _ => Except.ok (some "hello")) ∧
      driveCall.name = "readGoogleDriveFile" ∧ ("hello" : String) ≠ "") ∧
    respondToCall driveEnv driveCall
        = { id := "d1", name := "readGoogleDriveFile", result := jsSlice "hello" 20000 } := by
  refine ⟨⟨rfl, rfl, by decide⟩, ?_⟩
  exact ((C10_read_drive_truncation driveEnv _ rfl driveCall rfl).1 "hello" rfl
    (by decide)).1
